import Mathlib

/-!
Shallow embedding of the website-audit-tool serverless handlers
(src/api/analyze.js, src/api/create-payment.js, src/api/generate-pdf.js,
src/api/lead-capture.js) and proofs about their scoring, fallback and
error-handling behaviour.

External services (PageSpeed, Gemini, Stripe, Supabase, the CRM webhook)
are modelled as inputs to the handlers: an outcome value stands for the
result of the awaited call, with Option none standing for a thrown
error / failed call, exactly where the JavaScript wraps the call in
try/catch.
-/

namespace AuditTool

/-- JavaScript Math.round: rounds to the nearest integer, ties toward
positive infinity; equal to the floor of x + 1/2 for finite x. -/
def jsRound (q : ℚ) : ℤ := ⌊q + 1/2⌋

/-- Raw category scores of a PageSpeed API response, each a 0..1 fraction.
A missing category models categories.X?.score being undefined, which the
code replaces with 0 via the or-zero idiom. -/
structure RawCategories where
  performance : Option ℚ
  seo : Option ℚ
  accessibility : Option ℚ
  bestPractices : Option ℚ

/-- One category score as computed in getPageSpeedData:
Math.round of (categories.X?.score or 0) times 100. -/
def catScore (o : Option ℚ) : ℤ := jsRound (o.getD 0 * 100)

/-- The score record returned by getPageSpeedData in analyze.js. -/
structure PageSpeedScores where
  overallScore : ℤ
  performance : ℤ
  seo : ℤ
  mobile : ℤ
  accessibility : ℤ
deriving DecidableEq

/-- getPageSpeedData of analyze.js. The argument is the outcome of the
awaited axios call: some raw categories on success, none when the call
threw, in which case the catch block returns the fixed score 50 in every
field. On success each category is rounded independently, mobile is
derived from performance and best-practices, and the overall score is
the rounded mean of the four categories. -/
def getPageSpeedData (response : Option RawCategories) : PageSpeedScores :=
  match response with
  | none =>
      { overallScore := 50, performance := 50, seo := 50, mobile := 50
        accessibility := 50 }
  | some categories =>
      let performance := catScore categories.performance
      let seo := catScore categories.seo
      let accessibility := catScore categories.accessibility
      let bestPractices := catScore categories.bestPractices
      let mobile := jsRound ((performance + bestPractices : ℤ) / 2)
      let overallScore :=
        jsRound ((performance + seo + accessibility + mobile : ℤ) / 4)
      { overallScore, performance, seo, mobile, accessibility }

/-- C4: for every successful provider response, the returned overallScore
is the rounded mean of the four independently rounded category scores
(performance, seo, accessibility and the derived mobile) — and this is
not the same function as rounding the mean of the raw provider fractions:
a concrete response is exhibited on which the two disagree. -/
theorem overallScore_is_round_of_rounded_mean :
    (∀ r : RawCategories,
      (getPageSpeedData (some r)).overallScore =
        jsRound (((getPageSpeedData (some r)).performance
          + (getPageSpeedData (some r)).seo
          + (getPageSpeedData (some r)).accessibility
          + (getPageSpeedData (some r)).mobile : ℤ) / 4))
    ∧ ∃ r : RawCategories,
      (getPageSpeedData (some r)).overallScore ≠
        jsRound (((r.performance.getD 0 + r.seo.getD 0
          + r.accessibility.getD 0
          + (r.performance.getD 0 + r.bestPractices.getD 0) / 2) * 100) / 4) := by
  constructor
  · intro r
    rfl
  · refine ⟨⟨some (88/125), some (88/125), some (88/125), some (357/500)⟩, ?_⟩
    norm_num [getPageSpeedData, catScore, jsRound]

/-- C5: the mobile score always equals the JS rounding of the mean of the
already-rounded performance and best-practices scores, and in particular
rounded scores performance = 80 and bestPractices = 60 give mobile = 70. -/
theorem mobile_is_round_of_perf_best :
    (∀ r : RawCategories,
      (getPageSpeedData (some r)).mobile =
        jsRound ((catScore r.performance + catScore r.bestPractices : ℤ) / 2))
    ∧ (getPageSpeedData
        (some ⟨some (4/5), some (9/10), some (9/10), some (3/5)⟩)).performance = 80
    ∧ catScore (some (3/5)) = 60
    ∧ (getPageSpeedData
        (some ⟨some (4/5), some (9/10), some (9/10), some (3/5)⟩)).mobile = 70 := by
  refine ⟨fun r => rfl, ?_, ?_, ?_⟩ <;>
    norm_num [getPageSpeedData, catScore, jsRound]

/-- A recommendation object as produced by the analyze handler: title,
description, a priority string and an expected impact. -/
structure Recommendation where
  title : String
  description : String
  priority : String
  impact : String
deriving DecidableEq

/-- Fallback entry pushed when data.performance < 70 (first of two). -/
def optimizeImages : Recommendation :=
  { title := "Optimize Images"
    description := "Compress images using tools like TinyPNG, convert to WebP format, and implement lazy loading to reduce initial page load time."
    priority := "High"
    impact := "2-5 seconds faster load time" }

/-- Fallback entry pushed when data.performance < 70 (second of two). -/
def minifyCssAndJs : Recommendation :=
  { title := "Minify CSS and JavaScript"
    description := "Remove unnecessary characters, whitespace, and comments from CSS and JavaScript files to reduce file sizes."
    priority := "High"
    impact := "10-30% reduction in file sizes" }

/-- Fallback entry pushed when data.seo < 70 (first of two). -/
def improveMetaTags : Recommendation :=
  { title := "Improve Meta Tags"
    description := "Add unique, descriptive title tags (50-60 chars) and meta descriptions (150-160 chars) to all pages. Include target keywords naturally."
    priority := "High"
    impact := "Better search rankings and click-through rates" }

/-- Fallback entry pushed when data.seo < 70 (second of two). -/
def fixHeadingStructure : Recommendation :=
  { title := "Fix Heading Structure"
    description := "Ensure proper heading hierarchy (H1 → H2 → H3) on all pages. Use only one H1 per page containing your main keyword."
    priority := "Medium"
    impact := "Improved SEO and accessibility" }

/-- Fallback entry pushed when data.mobile < 70. -/
def mobileResponsiveDesign : Recommendation :=
  { title := "Mobile Responsive Design"
    description := "Fix responsive layout issues, ensure tap targets are at least 48x48 pixels, and use appropriate font sizes (minimum 16px) for mobile devices."
    priority := "High"
    impact := "Better mobile user experience and rankings" }

/-- Fallback entry pushed when data.accessibility < 70. -/
def improveAccessibility : Recommendation :=
  { title := "Improve Accessibility"
    description := "Add descriptive alt text to all images, ensure color contrast ratio is at least 4.5:1, and add ARIA labels to interactive elements."
    priority := "Medium"
    impact := "Reach 15% more users and improve SEO" }

/-- Fallback entry pushed when the list still has fewer than 6 entries. -/
def enableBrowserCaching : Recommendation :=
  { title := "Enable Browser Caching"
    description := "Configure your server to set proper cache headers for static resources (images, CSS, JS) to reduce repeat visitor load times."
    priority := "Medium"
    impact := "50-70% faster for returning visitors" }

/-- Fallback entry pushed when the list still has fewer than 6 entries
after the browser-caching check. -/
def installSslCertificate : Recommendation :=
  { title := "Install SSL Certificate"
    description := "Secure your website with HTTPS to protect user data, build trust, and improve search rankings (required by Google)."
    priority := "High"
    impact := "Trust + SEO boost + security" }

/-- getFallbackRecommendations of analyze.js: category-specific entries
for each category score below 70, then the browser-caching entry if the
list has fewer than 6 entries, then the SSL entry if the list still has
fewer than 6 entries, finally sliced to at most 6. -/
def getFallbackRecommendations (data : PageSpeedScores) : List Recommendation :=
  let list : List Recommendation := []
  let list := if data.performance < 70
    then list ++ [optimizeImages, minifyCssAndJs] else list
  let list := if data.seo < 70
    then list ++ [improveMetaTags, fixHeadingStructure] else list
  let list := if data.mobile < 70
    then list ++ [mobileResponsiveDesign] else list
  let list := if data.accessibility < 70
    then list ++ [improveAccessibility] else list
  let list := if list.length < 6 then list ++ [enableBrowserCaching] else list
  let list := if list.length < 6 then list ++ [installSslCertificate] else list
  list.take 6

/-- generateAIRecommendations of analyze.js. The second argument is the
outcome of the Gemini call: some recs when the call succeeded, the
response text contained a bracketed array and it parsed as JSON; none
when the call threw, no array was found, or parsing threw — every one of
those paths lands in the catch block, which substitutes the rule-based
fallback. On success the parsed list is sliced to at most 6 entries. -/
def generateAIRecommendations (pageSpeedData : PageSpeedScores)
    (gemini : Option (List Recommendation)) : List Recommendation :=
  match gemini with
  | some recommendations => recommendations.take 6
  | none => getFallbackRecommendations pageSpeedData

/-- C1: evaluating the recommendation pipeline at the failing inputs:
when the provider output parses to 3 items the handler returns 3
recommendations, and when the provider fails on an all-90 score profile
the fallback returns 2 — in neither case the promised 6. The slice only
truncates and nothing ever pads. -/
theorem recommendations_not_padded_to_six :
    (generateAIRecommendations ⟨90, 90, 90, 90, 90⟩
      (some [optimizeImages, improveMetaTags, improveAccessibility])).length = 3
    ∧ (generateAIRecommendations ⟨90, 90, 90, 90, 90⟩ none).length = 2 := by
  exact ⟨rfl, rfl⟩

/-- C2 counterexample: on a score profile with every category below 70
(all zeros) the fallback list is already full with the six
category-specific entries and the SSL/HTTPS recommendation is NOT
appended, refuting the claim that it is always appended. -/
theorem fallback_all_low_omits_ssl :
    installSslCertificate ∉ getFallbackRecommendations ⟨0, 0, 0, 0, 0⟩ := by
  decide

/-- C2 amended: the SSL/HTTPS recommendation is appended exactly when
the category-specific entries number at most 4 — that is, unless both
performance and seo are below 70 and at least one of mobile and
accessibility is also below 70 (which already fills the list of 6). -/
theorem fallback_ssl_iff_room_left (d : PageSpeedScores) :
    installSslCertificate ∈ getFallbackRecommendations d ↔
      ¬(d.performance < 70 ∧ d.seo < 70
        ∧ (d.mobile < 70 ∨ d.accessibility < 70)) := by
  by_cases h1 : d.performance < 70 <;>
  by_cases h2 : d.seo < 70 <;>
  by_cases h3 : d.mobile < 70 <;>
  by_cases h4 : d.accessibility < 70 <;>
  simp [getFallbackRecommendations, h1, h2, h3, h4, optimizeImages,
    minifyCssAndJs, improveMetaTags, fixHeadingStructure,
    mobileResponsiveDesign, improveAccessibility, enableBrowserCaching,
    installSslCertificate]

/-- JavaScript truthiness test for a possibly-absent string value:
undefined and the empty string are the falsy cases that arise for
request fields and environment variables. -/
def jsFalsy (o : Option String) : Bool :=
  match o with
  | none => true
  | some s => s = ""

/-- Body of a POST /api/analyze request; absent fields are none. -/
structure AnalyzeRequest where
  url : Option String
  email : Option String
  name : Option String

/-- The two provider credentials the analyze handler checks before
making any outbound call. -/
structure AnalyzeEnv where
  pagespeedKey : Option String
  geminiKey : Option String

/-- The successful JSON document returned by the analyze handler. -/
structure AuditResult where
  url : String
  email : String
  name : String
  timestamp : String
  overallScore : ℤ
  performance : ℤ
  seo : ℤ
  mobile : ℤ
  accessibility : ℤ
  recommendations : List Recommendation
deriving DecidableEq

/-- Response of the analyze handler: an error JSON with an HTTP status,
or the 200 AuditResult. -/
inductive AnalyzeResponse
  | err (status : ℕ) (msg : String)
  | ok (result : AuditResult)
deriving DecidableEq

/-- The two outbound provider calls the analyze handler can make. -/
inductive ProviderCall
  | pagespeed
  | gemini
deriving DecidableEq

/-- The POST path of the analyze handler (module.exports of analyze.js).
Besides the request it takes the environment, the timestamp string and
the outcomes of the two provider calls, and returns the response
together with the list of outbound provider calls actually made, in
order. Validation and the credential checks return before any call;
otherwise the performance lookup and then the recommendation generation
are awaited and the 200 document is assembled. -/
def analyzeHandler (env : AnalyzeEnv) (req : AnalyzeRequest) (now : String)
    (psOutcome : Option RawCategories)
    (geminiOutcome : Option (List Recommendation)) :
    AnalyzeResponse × List ProviderCall :=
  if jsFalsy req.url || jsFalsy req.email then
    (.err 400 "URL and email are required", [])
  else if jsFalsy env.pagespeedKey then
    (.err 500 "PAGESPEED_API_KEY missing", [])
  else if jsFalsy env.geminiKey then
    (.err 500 "GEMINI_API_KEY missing", [])
  else
    let pageSpeedData := getPageSpeedData psOutcome
    let aiRecommendations :=
      generateAIRecommendations pageSpeedData geminiOutcome
    (.ok
      { url := req.url.getD ""
        email := req.email.getD ""
        name := if jsFalsy req.name then "User" else req.name.getD ""
        timestamp := now
        overallScore := pageSpeedData.overallScore
        performance := pageSpeedData.performance
        seo := pageSpeedData.seo
        mobile := pageSpeedData.mobile
        accessibility := pageSpeedData.accessibility
        recommendations := aiRecommendations },
      [.pagespeed, .gemini])

/-- C7: whenever url or email is missing or empty, the analyze handler
returns the 400 client error and makes no outbound provider call. -/
theorem analyze_missing_field_400_no_calls (env : AnalyzeEnv)
    (req : AnalyzeRequest) (now : String) (psOutcome : Option RawCategories)
    (geminiOutcome : Option (List Recommendation))
    (h : jsFalsy req.url = true ∨ jsFalsy req.email = true) :
    analyzeHandler env req now psOutcome geminiOutcome =
      (.err 400 "URL and email are required", []) := by
  rcases h with h | h <;> simp [analyzeHandler, h]

/-- C7 witness: at a concrete request with no url the handler returns
400 and the call list is empty. -/
theorem analyze_missing_field_400_no_calls_witness :
    analyzeHandler ⟨some "psk", some "gmk"⟩ ⟨none, some "a@b.c", none⟩
      "2024-01-01T00:00:00.000Z" none none =
      (.err 400 "URL and email are required", []) :=
  analyze_missing_field_400_no_calls _ _ _ _ _ (Or.inl rfl)

/-- C6: once validation and the credential checks pass, provider
failures never produce an error response: the handler returns a 200
AuditResult in which a failed performance lookup is replaced by the
fixed score 50 in every category, and a failed or unparseable
recommendation call is replaced by the rule-based fallback list. -/
theorem analyze_provider_failures_absorbed (env : AnalyzeEnv)
    (req : AnalyzeRequest) (now : String) (psOutcome : Option RawCategories)
    (geminiOutcome : Option (List Recommendation))
    (hu : jsFalsy req.url = false) (he : jsFalsy req.email = false)
    (hp : jsFalsy env.pagespeedKey = false)
    (hg : jsFalsy env.geminiKey = false) :
    ∃ result : AuditResult,
      (analyzeHandler env req now psOutcome geminiOutcome).1 = .ok result
      ∧ (psOutcome = none →
          result.overallScore = 50 ∧ result.performance = 50
          ∧ result.seo = 50 ∧ result.mobile = 50 ∧ result.accessibility = 50)
      ∧ (geminiOutcome = none →
          result.recommendations =
            getFallbackRecommendations (getPageSpeedData psOutcome)) := by
  refine ⟨{ url := req.url.getD ""
            email := req.email.getD ""
            name := if jsFalsy req.name then "User" else req.name.getD ""
            timestamp := now
            overallScore := (getPageSpeedData psOutcome).overallScore
            performance := (getPageSpeedData psOutcome).performance
            seo := (getPageSpeedData psOutcome).seo
            mobile := (getPageSpeedData psOutcome).mobile
            accessibility := (getPageSpeedData psOutcome).accessibility
            recommendations :=
              generateAIRecommendations (getPageSpeedData psOutcome)
                geminiOutcome }, ?_, ?_, ?_⟩
  · simp [analyzeHandler, hu, he, hp, hg]
  · rintro rfl
    exact ⟨rfl, rfl, rfl, rfl, rfl⟩
  · rintro rfl
    rfl

/-- C6 witness: with both providers failing on a concrete valid request,
the handler still returns 200 with all scores 50 and the fallback
recommendations. -/
theorem analyze_provider_failures_absorbed_witness :
    ∃ result : AuditResult,
      (analyzeHandler ⟨some "psk", some "gmk"⟩
        ⟨some "https://example.com", some "a@b.c", none⟩
        "2024-01-01T00:00:00.000Z" none none).1 = .ok result
      ∧ ((none : Option RawCategories) = none →
          result.overallScore = 50 ∧ result.performance = 50
          ∧ result.seo = 50 ∧ result.mobile = 50 ∧ result.accessibility = 50)
      ∧ ((none : Option (List Recommendation)) = none →
          result.recommendations =
            getFallbackRecommendations (getPageSpeedData none)) :=
  analyze_provider_failures_absorbed _ _ _ _ _ rfl rfl rfl rfl

/-- Body of a POST /api/create-payment request. -/
structure PaymentRequest where
  email : String
  url : String
  amount : ℤ

/-- The parameters create-payment.js passes to the checkout-session
creation call of the payment provider. -/
structure CheckoutSessionParams where
  currency : String
  productName : String
  productDescription : String
  unit_amount : ℤ
  quantity : ℕ
  mode : String
  customer_email : String
  metadata_website_url : String
  metadata_email : String
deriving DecidableEq

/-- The checkout-session parameters built by create-payment.js from the
request body: INR currency, a fixed product name, the body amount
converted to paise, and metadata holding the website url and email. -/
def createCheckoutParams (req : PaymentRequest) : CheckoutSessionParams :=
  { currency := "inr"
    productName := "Detailed Website Audit Report"
    productDescription := "Complete analysis for " ++ req.url
    unit_amount := req.amount * 100
    quantity := 1
    mode := "payment"
    customer_email := req.email
    metadata_website_url := req.url
    metadata_email := req.email }

/-- C3 counterexample: the session amount is not one fixed constant —
two requests for the same email/URL pair with body amounts 499 and 1
produce sessions with different unit amounts. -/
theorem payment_amount_not_fixed :
    (createCheckoutParams ⟨"a@b.c", "https://example.com", 499⟩).unit_amount ≠
      (createCheckoutParams ⟨"a@b.c", "https://example.com", 1⟩).unit_amount := by
  decide

/-- C3 amended: every checkout session charges the request-supplied
amount converted to paise (amount times 100), and the session metadata
stores the requesting email and website URL pair (the email also being
the customer email). -/
theorem payment_session_amount_and_metadata (req : PaymentRequest) :
    (createCheckoutParams req).unit_amount = req.amount * 100
    ∧ (createCheckoutParams req).metadata_website_url = req.url
    ∧ (createCheckoutParams req).metadata_email = req.email
    ∧ (createCheckoutParams req).customer_email = req.email :=
  ⟨rfl, rfl, rfl, rfl⟩

/-- A checkout session as retrieved from the payment provider by
generate-pdf.js: its payment status and the stored metadata url. -/
structure StripeSession where
  payment_status : String
  metadata_website_url : String
deriving DecidableEq

/-- The expanded report stub of generate-pdf.js: the url from the
session metadata with empty placeholder analysis lists. -/
structure DetailedReport where
  url : String
  detailedRecommendations : List Recommendation
deriving DecidableEq

/-- generateDetailedReport of generate-pdf.js: the stub report. -/
def generateDetailedReport (url : String) : DetailedReport :=
  { url := url, detailedRecommendations := [] }

/-- Response of the generate-pdf handler. -/
inductive PdfResponse
  | err (status : ℕ) (msg : String)
  | ok (report : DetailedReport) (downloadUrl : String)
deriving DecidableEq

/-- The POST path of generate-pdf.js. The second argument is the outcome
of retrieving the checkout session: none when the retrieval threw
(landing in the catch block), some session otherwise. A session whose
payment status is not paid gets the 400 error; a paid one gets the
report stub and a download url. -/
def generatePdfHandler (sessionId : String)
    (retrieved : Option StripeSession) : PdfResponse :=
  match retrieved with
  | none => .err 500 "Report generation failed"
  | some session =>
      if session.payment_status ≠ "paid" then
        .err 400 "Payment not completed"
      else
        .ok (generateDetailedReport session.metadata_website_url)
          ("/download-pdf?session=" ++ sessionId)

/-- C9: a retrieved session whose payment status is not paid always gets
the 400 payment-not-completed error, and conversely the report stub is
returned only when the retrieved session is paid. -/
theorem pdf_report_only_when_paid (sessionId : String) :
    (∀ session : StripeSession, session.payment_status ≠ "paid" →
      generatePdfHandler sessionId (some session) =
        .err 400 "Payment not completed")
    ∧ ∀ (retrieved : Option StripeSession) (report : DetailedReport)
        (downloadUrl : String),
        generatePdfHandler sessionId retrieved = .ok report downloadUrl →
        ∃ session, retrieved = some session
          ∧ session.payment_status = "paid" := by
  constructor
  · intro session h
    simp [generatePdfHandler, h]
  · intro retrieved report downloadUrl h
    match retrieved with
    | none => simp [generatePdfHandler] at h
    | some session =>
        by_cases hp : session.payment_status = "paid"
        · exact ⟨session, rfl, hp⟩
        · simp [generatePdfHandler, hp] at h

/-- C9 witness: a concrete unpaid session gets the 400 error. -/
theorem pdf_report_only_when_paid_witness :
    generatePdfHandler "cs_test_1"
      (some ⟨"unpaid", "https://example.com"⟩) =
      .err 400 "Payment not completed" :=
  (pdf_report_only_when_paid "cs_test_1").1
    ⟨"unpaid", "https://example.com"⟩ (by decide)

/-- JavaScript value-or-null on a possibly-absent string: undefined and
the empty string (the falsy strings) become null. -/
def jsOrNullStr (o : Option String) : Option String :=
  match o with
  | none => none
  | some s => if s = "" then none else some s

/-- JavaScript value-or-null on a possibly-absent integer: undefined and
0 (the falsy integer) become null. -/
def jsOrNullInt (o : Option ℤ) : Option ℤ :=
  match o with
  | none => none
  | some n => if n = 0 then none else some n

/-- Body of a POST /api/lead-capture request; absent fields are none. -/
structure LeadRequest where
  type : Option String
  name : Option String
  email : Option String
  phone : Option String
  company : Option String
  message : Option String
  auditResults : Option AuditResult

/-- The lead row inserted into the leads table by lead-capture.js. -/
structure Lead where
  type : String
  name : Option String
  email : String
  phone : Option String
  company : Option String
  message : Option String
  website_url : Option String
  audit_score : Option ℤ
  audit_data : Option AuditResult
  status : String
  zoho_synced : Bool
deriving DecidableEq

/-- The leadData object built by lead-capture.js from the request body:
optional fields fall back to null via the or-null idiom, the website url
and audit score are read off the optional attached audit result the same
way, and status and the sync flag are fixed at creation. -/
def leadData (req : LeadRequest) : Lead :=
  { type := req.type.getD ""
    name := jsOrNullStr req.name
    email := req.email.getD ""
    phone := jsOrNullStr req.phone
    company := jsOrNullStr req.company
    message := jsOrNullStr req.message
    website_url := jsOrNullStr (req.auditResults.map (fun a => a.url))
    audit_score := jsOrNullInt (req.auditResults.map (fun a => a.overallScore))
    audit_data := req.auditResults
    status := "new"
    zoho_synced := false }

/-- Environment of the lead-capture handler: database credentials and
the optional CRM webhook url. -/
structure LeadEnv where
  supabaseUrl : Option String
  supabaseKey : Option String
  zohoWebhookUrl : Option String

/-- Outcome of the database insert. -/
inductive DbInsert
  | ok (id : ℕ)
  | failed

/-- Response of the lead-capture handler. -/
inductive LeadResponse
  | err (status : ℕ) (msg : String)
  | ok (leadId : ℕ) (type : String)
deriving DecidableEq

/-- The POST path of lead-capture.js. Arguments beyond the environment
and request are the outcomes of the external effects: the database
insert, and whether the CRM relay and the team notification throw. The
handler returns the response, the row that ended up persisted (none when
no insert succeeded) and the error log. The relay and notification sit
in their own try/catch blocks after the insert, so their exceptions only
append log lines. -/
def leadCaptureHandler (env : LeadEnv) (req : LeadRequest)
    (dbOutcome : DbInsert) (zohoThrows notifyThrows : Bool) :
    LeadResponse × Option Lead × List String :=
  if jsFalsy req.type || jsFalsy req.email then
    (.err 400 "Type and email are required", none, [])
  else if jsFalsy env.supabaseUrl || jsFalsy env.supabaseKey then
    (.err 500 "Database configuration missing", none, [])
  else
    match dbOutcome with
    | .failed => (.err 500 "Failed to save lead", none, [])
    | .ok id =>
        let saved := leadData req
        let zohoLog :=
          if !jsFalsy env.zohoWebhookUrl && zohoThrows then
            ["Zoho sync failed (non-critical)"] else []
        let notifyLog :=
          if notifyThrows then
            ["Team notification failed (non-critical)"] else []
        (.ok id (req.type.getD ""), some saved, zohoLog ++ notifyLog)

/-- C8: when type and email are present, the database credentials are
configured and the insert succeeds, the CRM relay or team notification
throwing changes nothing: the row stays persisted and the response is
the 200 success carrying the generated lead id. -/
theorem lead_capture_relay_failure_harmless (env : LeadEnv)
    (req : LeadRequest) (id : ℕ) (zohoThrows notifyThrows : Bool)
    (ht : jsFalsy req.type = false) (he : jsFalsy req.email = false)
    (hs : jsFalsy env.supabaseUrl = false)
    (hk : jsFalsy env.supabaseKey = false) :
    (leadCaptureHandler env req (.ok id) zohoThrows notifyThrows).1 =
      .ok id (req.type.getD "")
    ∧ (leadCaptureHandler env req (.ok id) zohoThrows notifyThrows).2.1 =
      some (leadData req) := by
  constructor <;> simp [leadCaptureHandler, ht, he, hs, hk]

/-- C8 witness: a concrete valid request with both the relay and the
notification throwing still yields the 200 with the lead id and the
persisted row. -/
theorem lead_capture_relay_failure_harmless_witness :
    (leadCaptureHandler ⟨some "su", some "sk", some "zw"⟩
      ⟨some "audit", none, some "a@b.c", none, none, none, none⟩
      (.ok 7) true true).1 = .ok 7 "audit"
    ∧ (leadCaptureHandler ⟨some "su", some "sk", some "zw"⟩
      ⟨some "audit", none, some "a@b.c", none, none, none, none⟩
      (.ok 7) true true).2.1 =
      some (leadData ⟨some "audit", none, some "a@b.c", none, none, none, none⟩) :=
  lead_capture_relay_failure_harmless _ _ 7 true true rfl rfl rfl rfl

/-- C10: an attached audit result with overallScore 0 is stored with a
null audit_score — indistinguishable from a request with no audit
attached — and an attached audit with an empty url is stored with a
null website_url, both through the falsy or-null coercion. -/
theorem lead_zero_score_stored_null (req : LeadRequest) (a : AuditResult)
    (ha : req.auditResults = some a) :
    (a.overallScore = 0 →
      (leadData req).audit_score = none
      ∧ (leadData req).audit_score =
          (leadData { req with auditResults := none }).audit_score)
    ∧ (a.url = "" → (leadData req).website_url = none) := by
  constructor
  · intro h
    constructor <;> simp [leadData, jsOrNullInt, ha, h]
  · intro h
    simp [leadData, jsOrNullStr, ha, h]

/-- C10 witness: a concrete audit with score 0 and empty url is stored
with null audit_score and null website_url. -/
theorem lead_zero_score_stored_null_witness :
    (((⟨"", "a@b.c", "User", "t0", 0, 10, 20, 30, 40, []⟩ :
        AuditResult).overallScore = 0 →
      (leadData ⟨some "audit", none, some "a@b.c", none, none, none,
        some ⟨"", "a@b.c", "User", "t0", 0, 10, 20, 30, 40, []⟩⟩).audit_score = none
      ∧ (leadData ⟨some "audit", none, some "a@b.c", none, none, none,
          some ⟨"", "a@b.c", "User", "t0", 0, 10, 20, 30, 40, []⟩⟩).audit_score =
        (leadData { (⟨some "audit", none, some "a@b.c", none, none, none,
          some ⟨"", "a@b.c", "User", "t0", 0, 10, 20, 30, 40, []⟩⟩ : LeadRequest)
            with auditResults := none }).audit_score)
    ∧ ((⟨"", "a@b.c", "User", "t0", 0, 10, 20, 30, 40, []⟩ :
        AuditResult).url = "" →
      (leadData ⟨some "audit", none, some "a@b.c", none, none, none,
        some ⟨"", "a@b.c", "User", "t0", 0, 10, 20, 30, 40, []⟩⟩).website_url = none)) :=
  lead_zero_score_stored_null _ _ rfl

end AuditTool
